import Mathlib

/-!
Verification of the bushnet-server synchronization agent (`src/main.go`).

The Go program discovers devices over zeroconf, and for each device lists
its recordings over HTTP, fetches each recording into a local file, and
deletes it from the device after a successful write.  A status LED is
driven through a sysfs trigger file.

The embedding below is a shallow one: every HTTP call, file operation and
LED access is answered by an explicit oracle (`Env`), and every function
additionally returns the list of observable events it performed, in order.
Go's `error` results are modelled as `Option String` (`none` = Go `nil`,
i.e. success; `some msg` = a non-nil error).
-/

/-- Constant `cptvFolder` from main.go line 22. -/
def cptvFolder : String := "/var/spool/cptv/downloaded"

/-- `type device struct` from main.go lines 27-31. -/
structure device where
  Name : String
  IPv4 : String
  Port : Nat
deriving DecidableEq

/-- `func (d device) getAddr() string` (main.go lines 103-105):
`fmt.Sprintf("http://%s:%d", d.IPv4, d.Port)`. -/
def device.getAddr (d : device) : String :=
  "http://" ++ d.IPv4 ++ ":" ++ toString d.Port

/-- The response to `GET /api/recordings`: a status code and the result of
JSON-decoding the body into a string array (`none` = malformed body). -/
structure ListResp where
  status : Nat
  ids : Option (List String)
deriving DecidableEq

/-- The response to `GET /api/recording/{id}`: a status code and the raw
body bytes. -/
structure RecResp where
  status : Nat
  body : List Nat
deriving DecidableEq

/-- Oracle answering the external calls one device's processing makes.
`none` for an HTTP response means the request failed at the network level
(Go's `http.Get` / `client.Do` returned a non-nil error). -/
structure Env where
  listResp : Option ListResp
  recResp : String → Option RecResp
  createOk : String → Bool
  copyOk : String → Bool
  delResp : String → Option Nat

/-- Observable events, in the order the Go code performs them. -/
inductive Event where
  | ledRequest (s : String)
  | httpGet (url : String)
  | httpDelete (url : String)
  | fileCreate (path : String)
  | fileWrite (path : String) (body : List Nat)
deriving DecidableEq

/-- `func (d device) getRecordingsList() []string` (main.go lines 33-52).
A transport error, a non-200 status, or a decode failure is logged and
yields `nil` (here `[]`). -/
def getRecordingsList (env : Env) (d : device) : List String × List Event :=
  let ev := [Event.httpGet (d.getAddr ++ "/api/recordings")]
  match env.listResp with
  | none => ([], ev)
  | some r =>
    if r.status = 200 then
      match r.ids with
      | none => ([], ev)
      | some ids => (ids, ev)
    else ([], ev)

/-- `path.Join(cptvFolder, d.Name+"_"+id)` (main.go line 63); the
components carry no path separators, so `path.Join` is plain joining. -/
def recordingPath (folder : String) (d : device) (id : String) : String :=
  folder ++ "/" ++ d.Name ++ "_" ++ id

/-- `func (d device) deleteRecording(id string) error` (main.go lines
77-91): issues the DELETE; a transport error is returned as-is, a non-200
status becomes `errors.New("non 200 status code")`. -/
def deleteRecording (env : Env) (d : device) (id : String) :
    Option String × List Event :=
  let ev := [Event.httpDelete (d.getAddr ++ "/api/recording/" ++ id)]
  match env.delResp id with
  | none => (some "transport error", ev)
  | some st => if st = 200 then (none, ev) else (some "non 200 status code", ev)

/-- `func (d device) getRecording(cptvFolder, id string) error` (main.go
lines 54-75).  Sets the LED to "blinking", issues the GET; on a transport
error the Go code logs it and returns `nil` (success).  Otherwise the
status code is never inspected: the body is streamed into a newly created
file, and only after a complete error-free copy is the DELETE issued.
`some "create failed"` / `some "copy failed"` stand for the non-nil errors
returned by `os.Create` / `io.Copy`. -/
def getRecording (env : Env) (d : device) (folder id : String) :
    Option String × List Event :=
  let url := d.getAddr ++ "/api/recording/" ++ id
  match env.recResp id with
  | none => (none, [Event.ledRequest "blinking", Event.httpGet url])
  | some resp =>
    let p := recordingPath folder d id
    if env.createOk p then
      if env.copyOk p then
        ((deleteRecording env d id).1,
          [Event.ledRequest "blinking", Event.httpGet url,
           Event.fileCreate p, Event.fileWrite p resp.body] ++
            (deleteRecording env d id).2)
      else
        (some "copy failed",
          [Event.ledRequest "blinking", Event.httpGet url, Event.fileCreate p])
    else
      (some "create failed",
        [Event.ledRequest "blinking", Event.httpGet url, Event.fileCreate p])

/-- `func (d device) getRecordings(cptvFolder string)` (main.go lines
93-102): iterates over the listed ids; an error from `getRecording` is
logged and the loop continues with the next id. -/
def getRecordings (env : Env) (d : device) (folder : String) : List Event :=
  (getRecordingsList env d).2 ++
    ((getRecordingsList env d).1.map
      (fun id => (getRecording env d folder id).2)).flatten

/-- The device loop of `runMain` (main.go lines 127-129): devices are
processed strictly one at a time, each by `getRecordings`. -/
def processDevices (envs : device → Env) (folder : String) :
    List device → List Event
  | [] => []
  | d :: rest => getRecordings (envs d) d folder ++ processDevices envs folder rest

/-- One iteration of the `for` loop in `runMain` (main.go lines 125-135),
after `getDevices` returned `devices`: process every device, then set the
LED to "on" when `len(devices) > 0` and to "off" otherwise. -/
def runCycle (envs : device → Env) (folder : String) (devices : List device) :
    List Event :=
  processDevices envs folder devices ++
    [Event.ledRequest (if devices.length > 0 then "on" else "off")]

/-! ### The LED / indicator model -/

/-- `var ledStates = map[string]string` (main.go lines 107-111).  A Go map
lookup of an absent key yields `""`; that is modelled by `none`. -/
def ledStates (s : String) : Option String :=
  if s = "blinking" then some "timer"
  else if s = "off" then some "none"
  else if s = "on" then some "default-on"
  else none

/-- The trigger vocabulary of the indicator device relevant to this
program; the sysfs trigger file lists the trigger names with the active
one in square brackets. -/
def ledTriggers : List String := ["none", "timer", "default-on"]

/-- One trigger name as it appears in the trigger file: bracketed when it
is the active one. -/
def renderTrigger (active t : String) : String :=
  if t = active then "[" ++ t ++ "]" else t

/-- The text content of the sysfs trigger file when `active` is the
currently selected trigger. -/
def ledFileContent (active : String) : String :=
  String.intercalate " " (ledTriggers.map (renderTrigger active))

/-- The physical state of the indicator device: whether the trigger file
exists at all (it does not on non-target hardware), and which trigger is
currently selected.  Writing a trigger name to the file selects it. -/
structure LedFile where
  present : Bool
  active : String
deriving DecidableEq

/-- Physical accesses to the trigger file performed by `setLedState`. -/
inductive LedAction where
  | read
  | write (t : String)
deriving DecidableEq

/-- Is `needle` an initial segment of `hay`?  (Character-level model of a
Go string comparison.) -/
def charsPre : List Char → List Char → Bool
  | [], _ => true
  | _ :: _, [] => false
  | a :: as, b :: bs => a = b && charsPre as bs

/-- Does `hay` contain `needle` as a contiguous segment?  Model of Go's
`strings.Contains`. -/
def charsContain (needle : List Char) : List Char → Bool
  | [] => charsPre needle []
  | c :: rest => charsPre needle (c :: rest) || charsContain needle rest

/-- `strings.Contains(hay, pat)`. -/
def strContains (hay pat : String) : Bool :=
  charsContain pat.data hay.data

/-- `func setLedState(s string)` (main.go lines 138-158), with the file
state made explicit.  An unknown logical state is logged and rejected
before any file access; a missing trigger file makes the read fail and
the call return; if the file already shows `[newState]` the write is
skipped; otherwise `echo newState > ledTriggerFile` selects the trigger. -/
def setLedState (f : LedFile) (s : String) : LedFile × List LedAction :=
  match ledStates s with
  | none => (f, [])
  | some newState =>
    if f.present then
      if strContains (ledFileContent f.active) ("[" ++ newState ++ "]") then
        (f, [LedAction.read])
      else
        ({ f with active := newState }, [LedAction.read, LedAction.write newState])
    else (f, [LedAction.read])

/-- The physical writes among a list of LED accesses. -/
def isWrite : LedAction → Bool
  | LedAction.write _ => true
  | LedAction.read => false

/-- How many physical writes a list of LED accesses contains. -/
def writeCount (acts : List LedAction) : Nat :=
  (acts.filter isWrite).length

/-! ### The discovery model -/

/-- A zeroconf service entry as consumed by `getDevices` (main.go lines
170-179): the advertised host name, the list of resolved IPv4 addresses
(as strings) and the port. -/
structure ServiceEntry where
  hostName : String
  addrIPv4 : List String
  port : Nat
deriving DecidableEq

/-- `entry.HostName[:len(entry.HostName)-7]` (main.go line 173): the last
seven characters of the advertised name are dropped. -/
def stripHostSuffix (s : String) : String :=
  String.mk (s.data.take (s.data.length - 7))

/-- The body of the collection goroutine in `getDevices` (main.go lines
171-178) for one entry.  `entry.AddrIPv4[0]` on an entry with no address
is an out-of-range access, i.e. a Go runtime panic: that is the `error`
case. -/
def entryToDevice (e : ServiceEntry) : Except String device :=
  match e.addrIPv4 with
  | [] => Except.error "index out of range"
  | a :: _ =>
    Except.ok { Name := stripHostSuffix e.hostName, IPv4 := a, Port := e.port }

/-- `func getDevices() []device` (main.go lines 160-191), applied to the
entries the browse session delivers, in order.  A panic while collecting
any entry crashes the process, so no device list is returned at all. -/
def getDevices : List ServiceEntry → Except String (List device)
  | [] => Except.ok []
  | e :: rest =>
    match entryToDevice e with
    | Except.error m => Except.error m
    | Except.ok d =>
      match getDevices rest with
      | Except.error m => Except.error m
      | Except.ok ds => Except.ok (d :: ds)

/-! ### Failure predicates -/

/-- The listing call failed: transport error, non-200 status, or a body
that does not decode as a string array (main.go lines 34-50). -/
def listingFailed (env : Env) : Prop :=
  env.listResp = none ∨
    ∃ r, env.listResp = some r ∧ (r.status ≠ 200 ∨ r.ids = none)

/-! ### Concrete oracles used by witnesses and counterexamples -/

/-- A sample device. -/
def devA : device := { Name := "cam1", IPv4 := "192.168.1.5", Port := 8080 }

/-- An oracle on which every external call succeeds. -/
def envAll : Env :=
  { listResp := some { status := 200, ids := some ["a", "b"] }
    recResp := fun _ => some { status := 200, body := [1, 2] }
    createOk := fun _ => true
    copyOk := fun _ => true
    delResp := fun _ => some 200 }

/-- An oracle on which the DELETE of recording "a" answers 500 and
everything else succeeds. -/
def envDelFailA : Env :=
  { envAll with delResp := fun id => if id = "a" then some 500 else some 200 }

/-- An oracle on which the GET of recording "a" fails at the network
level and everything else succeeds. -/
def envNetFailA : Env :=
  { envAll with recResp := fun id =>
      if id = "a" then none else some { status := 200, body := [1, 2] } }

/-- An oracle on which the listing GET fails at the network level. -/
def envListFail : Env :=
  { envAll with listResp := none }

/-- An oracle whose recording responses carry a 404 status. -/
def env404 : Env :=
  { envAll with recResp := fun _ => some { status := 404, body := [7] } }

/-! ### Helper lemmas -/

/-- `deleteRecording` always performs exactly the one DELETE request,
whatever the oracle answers. -/
theorem deleteRecording_events (env : Env) (d : device) (id : String) :
    (deleteRecording env d id).2 =
      [Event.httpDelete (d.getAddr ++ "/api/recording/" ++ id)] := by
  rcases h : env.delResp id with _ | st <;> simp [deleteRecording, h]
  split <;> rfl

/-- `getRecording` always issues the GET for its recording, whatever
happens afterwards. -/
theorem getRecording_fetch_mem (env : Env) (d : device) (folder id : String) :
    Event.httpGet (d.getAddr ++ "/api/recording/" ++ id) ∈
      (getRecording env d folder id).2 := by
  rcases hr : env.recResp id with _ | resp
  · simp [getRecording, hr]
  · unfold getRecording
    rw [hr]
    dsimp only
    split_ifs <;> simp

/-- When a response to the recording GET arrives, the file-creation
attempt is always made. -/
theorem getRecording_create_mem (env : Env) (d : device) (folder id : String)
    (resp : RecResp) (hr : env.recResp id = some resp) :
    Event.fileCreate (recordingPath folder d id) ∈
      (getRecording env d folder id).2 := by
  unfold getRecording
  rw [hr]
  dsimp only
  split_ifs <;> simp

/-- A failed listing call returns the empty id list and only the listing
GET event. -/
theorem getRecordingsList_failed (env : Env) (d : device)
    (h : listingFailed env) :
    getRecordingsList env d =
      ([], [Event.httpGet (d.getAddr ++ "/api/recordings")]) := by
  rcases h with h | ⟨r, hr, hfail⟩
  · simp [getRecordingsList, h]
  · rcases hfail with hs | hn
    · simp [getRecordingsList, hr, hs]
    · by_cases h200 : r.status = 200 <;> simp [getRecordingsList, hr, hn, h200]

/-- A mapped LED trigger is one of the three trigger names. -/
theorem ledStates_mem (s t : String) (h : ledStates s = some t) :
    t ∈ ledTriggers := by
  unfold ledStates at h
  split_ifs at h <;> simp_all [ledTriggers]

/-- Bracket test on the rendered trigger file: `[t]` occurs in the file
content exactly when `t` is the active trigger. -/
theorem contains_bracket_iff (active t : String)
    (ha : active ∈ ledTriggers) (ht : t ∈ ledTriggers) :
    strContains (ledFileContent active) ("[" ++ t ++ "]") = true ↔ active = t := by
  simp only [ledTriggers, List.mem_cons, List.mem_singleton,
    List.not_mem_nil, or_false] at ha ht
  rcases ha with rfl | rfl | rfl <;> rcases ht with rfl | rfl | rfl <;> decide

/-! ### Claim theorems -/

/-- C1: for every device and recording, the delete request is issued if
and only if the fetch received a response and the local file was created
and fully written without error; and when it is issued, it comes after
the full body write in the event order. -/
theorem c1_delete_iff_fetch_and_store (env : Env) (d : device) (folder id : String) :
    (Event.httpDelete (d.getAddr ++ "/api/recording/" ++ id) ∈
        (getRecording env d folder id).2 ↔
      ∃ resp, env.recResp id = some resp ∧
        env.createOk (recordingPath folder d id) = true ∧
        env.copyOk (recordingPath folder d id) = true) ∧
    (∀ resp, env.recResp id = some resp →
      env.createOk (recordingPath folder d id) = true →
      env.copyOk (recordingPath folder d id) = true →
      (getRecording env d folder id).2 =
        [Event.ledRequest "blinking",
         Event.httpGet (d.getAddr ++ "/api/recording/" ++ id),
         Event.fileCreate (recordingPath folder d id),
         Event.fileWrite (recordingPath folder d id) resp.body,
         Event.httpDelete (d.getAddr ++ "/api/recording/" ++ id)]) := by
  constructor
  · rcases hr : env.recResp id with _ | resp
    · simp [getRecording, hr]
    · by_cases hc : env.createOk (recordingPath folder d id) = true
      · by_cases hw : env.copyOk (recordingPath folder d id) = true
        · simp [getRecording, hr, hc, hw, deleteRecording_events]
        · simp [getRecording, hr, hc, hw]
      · simp [getRecording, hr, hc]
  · intro resp hr hc hw
    simp [getRecording, hr, hc, hw, deleteRecording_events]

/-- Witness for C1: on the all-success oracle, the delete for "a" is
issued. -/
theorem c1_witness :
    Event.httpDelete (devA.getAddr ++ "/api/recording/" ++ "a") ∈
      (getRecording envAll devA cptvFolder "a").2 :=
  (c1_delete_iff_fetch_and_store envAll devA cptvFolder "a").1.mpr
    ⟨{ status := 200, body := [1, 2] }, rfl, rfl, rfl⟩

/-- C2 counterexample: on a device listing `["a", "b"]` whose DELETE of
"a" answers 500, the delete of "a" fails, yet "b" is still attempted. -/
theorem c2_counterexample :
    (getRecording envDelFailA devA cptvFolder "a").1 ≠ none ∧
    Event.httpGet (devA.getAddr ++ "/api/recording/" ++ "b") ∈
      getRecordings envDelFailA devA cptvFolder := by
  exact ⟨by decide, by decide⟩

/-- C2 amended: a fetch or delete failure for one recording is only
logged; every recording in the enumerated list is attempted regardless of
earlier failures. -/
theorem c2_all_recordings_attempted (env : Env) (d : device) (folder id : String)
    (h : id ∈ (getRecordingsList env d).1) :
    Event.httpGet (d.getAddr ++ "/api/recording/" ++ id) ∈
      getRecordings env d folder := by
  unfold getRecordings
  refine List.mem_append_right _ ?_
  rw [List.mem_flatten]
  exact ⟨(getRecording env d folder id).2, List.mem_map_of_mem _ h,
    getRecording_fetch_mem env d folder id⟩

/-- Witness for C2's amended theorem: recording "b" of the all-success
oracle's listing is attempted. -/
theorem c2_witness :
    Event.httpGet (devA.getAddr ++ "/api/recording/" ++ "b") ∈
      getRecordings envAll devA cptvFolder :=
  c2_all_recordings_attempted envAll devA cptvFolder "b" (by decide)

/-- C4: every cycle ends by requesting the LED state determined exactly
by the discovered-device count — "on" (trigger "default-on", the active
signal) when the set is non-empty, "off" (trigger "none", the idle
signal) when it is empty. -/
theorem c4_indicator_by_device_count (envs : device → Env) (folder : String)
    (devices : List device) :
    (runCycle envs folder devices).getLast? =
      some (Event.ledRequest (if devices.length > 0 then "on" else "off")) ∧
    ledStates "on" = some "default-on" ∧ ledStates "off" = some "none" := by
  refine ⟨?_, rfl, rfl⟩
  unfold runCycle
  simp

/-- C6 counterexample: on an oracle whose GET of recording "a" fails at
the network level, `getRecording` returns `nil` (success), not an
error. -/
theorem c6_counterexample :
    envNetFailA.recResp "a" = none ∧
    (getRecording envNetFailA devA cptvFolder "a").1 = none :=
  ⟨rfl, rfl⟩

/-- C6 amended: when the fetch fails at the network level, the error is
only logged: `getRecording` returns success, creates no file and issues
no delete. -/
theorem c6_transport_error_returns_nil (env : Env) (d : device) (folder id : String)
    (h : env.recResp id = none) :
    getRecording env d folder id =
      (none, [Event.ledRequest "blinking",
              Event.httpGet (d.getAddr ++ "/api/recording/" ++ id)]) := by
  simp [getRecording, h]

/-- Witness for C6's amended theorem. -/
theorem c6_witness :
    getRecording envNetFailA devA cptvFolder "a" =
      (none, [Event.ledRequest "blinking",
              Event.httpGet (devA.getAddr ++ "/api/recording/" ++ "a")]) :=
  c6_transport_error_returns_nil envNetFailA devA cptvFolder "a" rfl

/-- C7: when a device's listing call fails, that device contributes only
the listing GET — no recording fetch and no delete — and the remaining
devices are still processed. -/
theorem c7_listing_failure_skips_device (envs : device → Env) (folder : String)
    (d : device) (rest : List device) (h : listingFailed (envs d)) :
    processDevices envs folder (d :: rest) =
      Event.httpGet (d.getAddr ++ "/api/recordings") ::
        processDevices envs folder rest := by
  have hlist := getRecordingsList_failed (envs d) d h
  have step : processDevices envs folder (d :: rest) =
      getRecordings (envs d) d folder ++ processDevices envs folder rest := rfl
  rw [step]
  unfold getRecordings
  rw [hlist]
  simp

/-- Witness for C7: a transport failure of the listing call. -/
theorem c7_witness :
    processDevices (fun _ => envListFail) cptvFolder [devA] =
      Event.httpGet (devA.getAddr ++ "/api/recordings") ::
        processDevices (fun _ => envListFail) cptvFolder [] :=
  c7_listing_failure_skips_device (fun _ => envListFail) cptvFolder devA []
    (Or.inl rfl)

/-- C9: the status code of the fetch response is never inspected: for any
response, 200 or not, when file creation and copy succeed the body is
written and the delete is still issued. -/
theorem c9_status_ignored (env : Env) (d : device) (folder id : String)
    (resp : RecResp) (hr : env.recResp id = some resp)
    (hc : env.createOk (recordingPath folder d id) = true)
    (hw : env.copyOk (recordingPath folder d id) = true) :
    Event.fileWrite (recordingPath folder d id) resp.body ∈
        (getRecording env d folder id).2 ∧
    Event.httpDelete (d.getAddr ++ "/api/recording/" ++ id) ∈
        (getRecording env d folder id).2 := by
  simp [getRecording, hr, hc, hw, deleteRecording_events]

/-- Witness for C9: a 404 response is written and deleted all the same. -/
theorem c9_witness :
    Event.fileWrite (recordingPath cptvFolder devA "a")
        (RecResp.mk 404 [7]).body ∈
      (getRecording env404 devA cptvFolder "a").2 ∧
    Event.httpDelete (devA.getAddr ++ "/api/recording/" ++ "a") ∈
      (getRecording env404 devA cptvFolder "a").2 :=
  c9_status_ignored env404 devA cptvFolder "a" { status := 404, body := [7] }
    rfl rfl rfl

/-- C10: a logical state outside {blinking, off, on} is rejected before
any access to the trigger file: no read, no write, state unchanged. -/
theorem c10_unknown_state_noop (f : LedFile) (s : String)
    (h : s ∉ ["blinking", "off", "on"]) :
    setLedState f s = (f, []) := by
  have h1 : ¬s = "blinking" := fun e => h (by simp [e])
  have h2 : ¬s = "off" := fun e => h (by simp [e])
  have h3 : ¬s = "on" := fun e => h (by simp [e])
  simp [setLedState, ledStates, h1, h2, h3]

/-- Witness for C10: the spec-level state name "busy" is not in the
code's vocabulary and is a no-op. -/
theorem c10_witness :
    setLedState { present := true, active := "none" } "busy" =
      ({ present := true, active := "none" }, []) :=
  c10_unknown_state_noop { present := true, active := "none" } "busy" (by decide)

/-- C3 counterexample: a service entry carrying no resolvable address is
not skipped — collecting it is an out-of-range access and the scan
fails. -/
theorem c3_counterexample :
    getDevices [{ hostName := "camera1.local.", addrIPv4 := [], port := 80 }] =
      Except.error "index out of range" := rfl

/-- C3 amended: a service entry with no resolvable network address makes
the whole scan fail (a Go index-out-of-range panic), rather than being
silently skipped. -/
theorem c3_missing_addr_fails_scan (entries : List ServiceEntry)
    (e : ServiceEntry) (hmem : e ∈ entries) (haddr : e.addrIPv4 = []) :
    ∃ m, getDevices entries = Except.error m := by
  induction entries with
  | nil => cases hmem
  | cons hd tl ih =>
    rcases List.mem_cons.mp hmem with rfl | hmem
    · exact ⟨"index out of range", by simp [getDevices, entryToDevice, haddr]⟩
    · rcases ih hmem with ⟨m, hm⟩
      unfold getDevices
      cases entryToDevice hd
      · exact ⟨_, rfl⟩
      · rw [hm]
        exact ⟨m, rfl⟩

/-- Witness for C3's amended theorem. -/
theorem c3_witness :
    ∃ m, getDevices
        [{ hostName := "camera1.local.", addrIPv4 := [], port := 80 }] =
      Except.error m :=
  c3_missing_addr_fails_scan _ _ (List.mem_singleton.mpr rfl) rfl

/-- C5: if the trigger file already shows the bracketed trigger mapped
from the requested signal, no physical write happens and the state is
unchanged; hence two consecutive requests for the same signal perform at
most one physical write, and exactly one when the initial trigger
differs. -/
theorem c5_debounce (f : LedFile) (s t : String)
    (hs : ledStates s = some t) (hp : f.present = true)
    (ha : f.active ∈ ledTriggers) :
    (f.active = t → setLedState f s = (f, [LedAction.read])) ∧
    writeCount (setLedState f s).2 +
        writeCount (setLedState (setLedState f s).1 s).2 =
      (if f.active = t then 0 else 1) := by
  have ht := ledStates_mem s t hs
  by_cases heq : f.active = t
  · have hcon : strContains (ledFileContent f.active) ("[" ++ t ++ "]") = true :=
      (contains_bracket_iff f.active t ha ht).mpr heq
    have hone : setLedState f s = (f, [LedAction.read]) := by
      simp [setLedState, hs, hp, hcon]
    refine ⟨fun _ => hone, ?_⟩
    rw [hone]
    simp [hone, heq, writeCount, isWrite]
  · have hcon : strContains (ledFileContent f.active) ("[" ++ t ++ "]") = false := by
      rcases Bool.eq_false_or_eq_true
        (strContains (ledFileContent f.active) ("[" ++ t ++ "]")) with htrue | hfalse
      · exact absurd ((contains_bracket_iff f.active t ha ht).mp htrue) heq
      · exact hfalse
    have hone : setLedState f s =
        ({ f with active := t }, [LedAction.read, LedAction.write t]) := by
      simp [setLedState, hs, hp, hcon]
    have hcon2 : strContains (ledFileContent t) ("[" ++ t ++ "]") = true :=
      (contains_bracket_iff t t ht ht).mpr rfl
    have htwo : setLedState { f with active := t } s =
        ({ f with active := t }, [LedAction.read]) := by
      simp [setLedState, hs, hp, hcon2]
    refine ⟨fun e => absurd e heq, ?_⟩
    rw [hone]
    simp [htwo, heq, writeCount, isWrite]

/-- Witness for C5: starting from trigger "none", two consecutive
requests for "on" write exactly once. -/
theorem c5_witness :
    ((LedFile.mk true "none").active = "default-on" →
      setLedState (LedFile.mk true "none") "on" =
        (LedFile.mk true "none", [LedAction.read])) ∧
    writeCount (setLedState (LedFile.mk true "none") "on").2 +
        writeCount
          (setLedState (setLedState (LedFile.mk true "none") "on").1 "on").2 =
      (if (LedFile.mk true "none").active = "default-on" then 0 else 1) :=
  c5_debounce (LedFile.mk true "none") "on" "default-on" rfl rfl (by decide)

/-- C8: the logical device name is the advertised name with its last
seven characters stripped, and that name is what prefixes the local file
name of each of the device's recordings. -/
theorem c8_name_strip_and_filename (e : ServiceEntry) (a : String)
    (rest : List String) (env : Env) (folder id : String) (resp : RecResp)
    (h7 : 7 ≤ e.hostName.data.length) (haddr : e.addrIPv4 = a :: rest)
    (hresp : env.recResp id = some resp) :
    ∃ d suf, entryToDevice e = Except.ok d ∧
      suf.length = 7 ∧ d.Name.data ++ suf = e.hostName.data ∧
      Event.fileCreate (folder ++ "/" ++ d.Name ++ "_" ++ id) ∈
        (getRecording env d folder id).2 := by
  refine ⟨{ Name := stripHostSuffix e.hostName, IPv4 := a, Port := e.port },
    e.hostName.data.drop (e.hostName.data.length - 7), ?_, ?_, ?_, ?_⟩
  · simp [entryToDevice, haddr]
  · rw [List.length_drop]
    omega
  · simp [stripHostSuffix]
  · exact getRecording_create_mem env _ folder id resp hresp

/-- Witness for C8: "camera1.local." yields device name "camera1" and
file "camera1_a". -/
theorem c8_witness :
    ∃ d suf,
      entryToDevice
          { hostName := "camera1.local.", addrIPv4 := ["192.168.1.5"],
            port := 80 } =
        Except.ok d ∧
      suf.length = 7 ∧
      d.Name.data ++ suf =
        (ServiceEntry.mk "camera1.local." ["192.168.1.5"] 80).hostName.data ∧
      Event.fileCreate (cptvFolder ++ "/" ++ d.Name ++ "_" ++ "a") ∈
        (getRecording envAll d cptvFolder "a").2 :=
  c8_name_strip_and_filename
    { hostName := "camera1.local.", addrIPv4 := ["192.168.1.5"], port := 80 }
    "192.168.1.5" [] envAll cptvFolder "a" { status := 200, body := [1, 2] }
    (by decide) rfl rfl
